import Mathlib

/-!
Verification development for a UDP-based custom transport protocol simulator.

The source is a single-page application whose protocol core consists of:
* a data model (`ConnectionState`, `PacketFlag`, `Packet`, `NodeState` in `types.ts`),
* a send helper `sendPacket` / `sendPacketWithSchedule` that constructs a packet,
  appends it to the in-flight set and advances the sender sequence number for
  sequence-consuming flags,
* two arrival handlers: `processPacketArrival` (the `useCallback` version,
  source lines 110-188) and the reassigned `processPacketArrivalRef.current`
  (source lines 293-353) which additionally emits the automatic protocol
  replies,
* a drop handler `handleDropPacket` and a delivery guard `schedulePacketArrival`
  that forwards a packet to the arrival handler only while it is still in the
  in-flight set,
* the user actions `handleConnect`, `handleDisconnect`, `handleSendData`.

The embedding below is a sequential state-passing model of that code: the
framework state setters (`setClient`, `setServer`, `setPackets`) become record
updates applied in program order, `Math.random`-generated packet ids and
session ids become fresh counters threaded through the world state, and the
timer-based delivery becomes an explicit `deliver` step guarded by membership
in the in-flight set, exactly as in `schedulePacketArrival`.  Wall-clock
timestamps and the log entry id/timestamp fields (random / clock values that
no protocol decision reads) are not represented.
-/

set_option maxHeartbeats 1000000

/-- Connection states, from `types.ts` (`ConnectionState`). -/
inductive ConnectionState where
  | CLOSED
  | LISTEN
  | SYN_SENT
  | SYN_RCVD
  | ESTABLISHED
  | FIN_WAIT
deriving Repr, DecidableEq

/-- Packet flags, from `types.ts` (`PacketFlag`). -/
inductive PacketFlag where
  | NONE
  | SYN
  | ACK
  | SYN_ACK
  | FIN
  | RST
  | DATA
deriving Repr, DecidableEq

/-- The two endpoints of the point-to-point protocol. -/
inductive Role where
  | CLIENT
  | SERVER
deriving Repr, DecidableEq

/-- Display string of a flag, as used in log messages (`types.ts` enum values). -/
def flagStr : PacketFlag → String
  | .NONE => "NONE"
  | .SYN => "SYN"
  | .ACK => "ACK"
  | .SYN_ACK => "SYN-ACK"
  | .FIN => "FIN"
  | .RST => "RST"
  | .DATA => "DATA"

/-- Log entry categories, from `types.ts` (`LogEntry.type`). -/
inductive LogType where
  | info
  | success
  | error
  | warning
  | traffic
deriving Repr, DecidableEq

/-- A log entry.  The source also stores a random id and a wall-clock
timestamp; neither is read anywhere, so they are not modelled. -/
structure LogEntry where
  message : String
  type : LogType
deriving Repr, DecidableEq

/-- A packet, from `types.ts` (`Packet`).  The `Math.random` id is modelled as
a `Nat` drawn from a fresh counter; the clock `timestamp` (used only to drive
the fixed-latency timer) and the never-written `dropped` field are omitted. -/
structure Packet where
  id : Nat
  source : Role
  destination : Role
  flag : PacketFlag
  seq : Nat
  ack : Nat
  payload : String
  sessionId : Option String
deriving Repr, DecidableEq

/-- Per-endpoint node state, from `types.ts` (`NodeState`). -/
structure NodeState where
  role : Role
  connectionState : ConnectionState
  seq : Nat
  lastAckReceived : Nat
  sessionId : Option String
  logs : List LogEntry
deriving Repr, DecidableEq

/-- The whole simulator state: the two nodes, the in-flight packet set, and
two fresh-value counters standing for the `Math.random` draws that produce
packet ids and session ids. -/
structure World where
  client : NodeState
  server : NodeState
  packets : List Packet
  nextId : Nat
  nextSid : Nat
deriving Repr, DecidableEq

/-- The peer of a role (`from === CLIENT ? SERVER : CLIENT`). -/
def otherRole : Role → Role
  | .CLIENT => .SERVER
  | .SERVER => .CLIENT

/-- The node owned by a role (`from === CLIENT ? client : server`). -/
def nodeOf (w : World) : Role → NodeState
  | .CLIENT => w.client
  | .SERVER => w.server

/-- Replace the node owned by a role. -/
def setNode (w : World) : Role → NodeState → World
  | .CLIENT, n => { w with client := n }
  | .SERVER, n => { w with server := n }

/-- JavaScript `x || null` / `x || undefined` on an optional string: an absent
or empty (falsy) string collapses to `none`. -/
def jsStrOr : Option String → Option String
  | none => none
  | some s => if s = "" then none else some s

/-- Session id allocation: the source draws `"SES-" + Math.floor(Math.random()*10000)`
(ref handler, line 301) resp. a random base-36 suffix (line 125); the random
draw is modelled by the fresh counter `nextSid`. -/
def freshSessionId (w : World) : String :=
  "SES-" ++ toString w.nextSid

/-- The `addLog` helper (source lines 41-54): append one entry to the logs of
the given role. -/
def addLog (r : Role) (msg : String) (t : LogType) (w : World) : World :=
  match r with
  | .CLIENT => { w with client := { w.client with logs := w.client.logs ++ [⟨msg, t⟩] } }
  | .SERVER => { w with server := { w.server with logs := w.server.logs ++ [⟨msg, t⟩] } }

/-- Does this flag advance the sender sequence number?  The source condition
`flag === SYN || flag === FIN || flag === DATA || flag === SYN_ACK`
(lines 85 and 271). -/
def seqConsuming (f : PacketFlag) : Bool :=
  f = .SYN || f = .FIN || f = .DATA || f = .SYN_ACK

/-- Construct the packet that `sendPacket` / `sendPacketWithSchedule` builds
(lines 56-74 and 241-261): seq/ack default to the sender fields unless
overridden, the session id is the sender session id passed through `|| undefined`. -/
def mkPacket (src : Role) (flag : PacketFlag) (payload : String)
    (oSeq oAck : Option Nat) (w : World) : Packet :=
  let sender := nodeOf w src
  { id := w.nextId
    source := src
    destination := otherRole src
    flag := flag
    seq := oSeq.getD sender.seq
    ack := oAck.getD sender.lastAckReceived
    payload := payload
    sessionId := jsStrOr sender.sessionId }

/-- The send operation, `sendPacketWithSchedule` (source lines 241-277):
construct the packet, append it to the in-flight set, log the send, and bump
the sender sequence number for sequence-consuming flags.  `sendPacket`
(lines 56-92) performs the identical protocol-state effects; in this model the
scheduling itself is implicit (delivery is the separate `deliver` step guarded
by in-flight membership), so one definition covers both.  The Gemini analysis
call on SYN / SYN-ACK packets is an external annotation port with no effect on
protocol state and is not modelled. -/
def sendPacketWithSchedule (src : Role) (flag : PacketFlag) (payload : String)
    (oSeq oAck : Option Nat) (w : World) : World :=
  let pkt := mkPacket src flag payload oSeq oAck w
  let w1 := { w with packets := w.packets ++ [pkt], nextId := w.nextId + 1 }
  let w2 := addLog src ("Sent " ++ flagStr flag) .traffic w1
  if seqConsuming flag then
    setNode w2 src { nodeOf w2 src with seq := (nodeOf w2 src).seq + 1 }
  else
    w2

/-- The drop handler `handleDropPacket` (source lines 94-99): remove the
packet from the in-flight set; if it was present, log one loss event
attributed to the packet source. -/
def handleDropPacket (id : Nat) (w : World) : World :=
  let w1 := { w with packets := w.packets.filter (fun p => p.id != id) }
  match w.packets.find? (fun p => p.id == id) with
  | some pkt =>
      addLog pkt.source ("Packet " ++ flagStr pkt.flag ++ " lost/dropped in transit!") .error w1
  | none => w1

/-- The `useCallback` arrival handler `processPacketArrival` (source lines
110-188): remove the packet from flight, log the receipt, then run the
receiving state machine.  This version emits no reply packets (the SYN-ACK
responder `setTimeout` body at lines 135-148 contains only comments). -/
def processPacketArrival (p : Packet) (w : World) : World :=
  let w1 := { w with packets := w.packets.filter (fun q => q.id != p.id) }
  let receiver := nodeOf w p.destination
  let w2 := addLog receiver.role ("Received " ++ flagStr p.flag) .traffic w1
  if receiver.role = .SERVER then
    if w.server.connectionState = .LISTEN then
      if p.flag = .SYN then
        let w3 := addLog .SERVER ("SYN received. Initiating Handshake.") .success w2
        let w4 := { w3 with
          server := { w3.server with
            connectionState := .SYN_RCVD
            lastAckReceived := p.seq + 1
            sessionId := some (freshSessionId w) }
          nextSid := w.nextSid + 1 }
        w4
      else w2
    else if w.server.connectionState = .SYN_RCVD then
      if p.flag = .ACK ∧ p.ack = w.server.seq then
        let w3 := addLog .SERVER ("ACK received. Connection ESTABLISHED.") .success w2
        { w3 with server := { w3.server with connectionState := .ESTABLISHED } }
      else w2
    else if w.server.connectionState = .ESTABLISHED then
      if p.flag = .DATA then
        let w3 := addLog .SERVER ("Data Processed: " ++ p.payload) .success w2
        { w3 with server := { w3.server with lastAckReceived := p.seq + 1 } }
      else if p.flag = .FIN then
        let w3 := addLog .SERVER ("FIN received. Closing connection.") .warning w2
        { w3 with server := { w3.server with connectionState := .CLOSED, sessionId := none } }
      else w2
    else w2
  else if receiver.role = .CLIENT then
    if w.client.connectionState = .SYN_SENT then
      if p.flag = .SYN_ACK then
        let w3 := addLog .CLIENT ("SYN-ACK received.") .success w2
        { w3 with client := { w3.client with
            connectionState := .ESTABLISHED
            lastAckReceived := p.seq + 1
            sessionId := jsStrOr p.sessionId } }
      else w2
    else if w.client.connectionState = .ESTABLISHED then
      if p.flag = .ACK then
        addLog .CLIENT ("Data/Packet Acknowledged by Server.") .success w2
      else w2
    else w2
  else w2

/-- The reassigned arrival handler `processPacketArrivalRef.current` (source
lines 293-353): same removal and receipt log, but the state machine also
emits the automatic replies (SYN-ACK to a SYN, ACK to DATA, final ACK to a
SYN-ACK), and its ACK-in-SYN_RCVD branch carries no ack guard while its FIN
branch applies in every server state.  The `setTimeout` processing delays
around the replies are sequentialised. -/
def processPacketArrivalCur (p : Packet) (w : World) : World :=
  let w1 := { w with packets := w.packets.filter (fun q => q.id != p.id) }
  let receiver := nodeOf w p.destination
  let w2 := addLog receiver.role ("Received " ++ flagStr p.flag) .traffic w1
  if receiver.role = .SERVER then
    if p.flag = .SYN ∧ w.server.connectionState = .LISTEN then
      let ses := freshSessionId w
      let w3 := addLog .SERVER ("SYN Valid. Allocating Session " ++ ses) .success w2
      let w4 := { w3 with
        server := { w3.server with
          connectionState := .SYN_RCVD
          lastAckReceived := p.seq + 1
          sessionId := some ses }
        nextSid := w.nextSid + 1 }
      sendPacketWithSchedule .SERVER .SYN_ACK ("") none (some (p.seq + 1)) w4
    else if p.flag = .ACK ∧ w.server.connectionState = .SYN_RCVD then
      let w3 := addLog .SERVER ("Handshake Completed.") .success w2
      { w3 with server := { w3.server with connectionState := .ESTABLISHED } }
    else if p.flag = .DATA ∧ w.server.connectionState = .ESTABLISHED then
      let w3 := { w2 with server := { w2.server with lastAckReceived := p.seq + 1 } }
      sendPacketWithSchedule .SERVER .ACK ("") none (some (p.seq + 1)) w3
    else if p.flag = .FIN then
      let w3 := { w2 with server := { w2.server with connectionState := .CLOSED, sessionId := none } }
      addLog .SERVER ("Connection Reset/Closed") .warning w3
    else w2
  else if receiver.role = .CLIENT then
    if p.flag = .SYN_ACK ∧ w.client.connectionState = .SYN_SENT then
      let w3 := addLog .CLIENT ("Server Accepted. Sending Final ACK.") .success w2
      let w4 := { w3 with client := { w3.client with
          connectionState := .ESTABLISHED
          lastAckReceived := p.seq + 1
          sessionId := jsStrOr p.sessionId } }
      sendPacketWithSchedule .CLIENT .ACK ("") none (some (p.seq + 1)) w4
    else if p.flag = .ACK ∧ w.client.connectionState = .ESTABLISHED then
      w2
    else w2
  else w2

/-- The delivery step of `schedulePacketArrival` (source lines 226-238): when
the latency timer fires, the captured packet is forwarded to
`processPacketArrival` only if it is still in the in-flight set. -/
def deliver (p : Packet) (w : World) : World :=
  if w.packets.any (fun q => q.id == p.id) then processPacketArrival p w else w

/-- The delivery step of `schedulePacketArrivalRef.current` (source lines
359-370): identical in-flight guard, forwarding to the reassigned handler
`processPacketArrivalRef.current` via `handleArrival`. -/
def deliverCur (p : Packet) (w : World) : World :=
  if w.packets.any (fun q => q.id == p.id) then processPacketArrivalCur p w else w

/-- The user action `handleConnect` (source lines 374-378): only from CLOSED;
move the client to SYN_SENT and send a SYN. -/
def handleConnect (w : World) : World :=
  if w.client.connectionState ≠ .CLOSED then w
  else
    let w1 := { w with client := { w.client with connectionState := .SYN_SENT } }
    sendPacketWithSchedule .CLIENT .SYN ("") none none w1

/-- The user action `handleDisconnect` (source lines 380-383): send a FIN,
then set the client to CLOSED and clear its session id.  No state guard. -/
def handleDisconnect (w : World) : World :=
  let w1 := sendPacketWithSchedule .CLIENT .FIN ("") none none w
  { w1 with client := { w1.client with connectionState := .CLOSED, sessionId := none } }

/-- The user action `handleSendData` (source lines 385-389): only from
ESTABLISHED; send a DATA packet.  The payload comes from the external
`generateSecurePayload` service and is passed in as a parameter. -/
def handleSendData (payload : String) (w : World) : World :=
  if w.client.connectionState ≠ .ESTABLISHED then w
  else sendPacketWithSchedule .CLIENT .DATA payload none none w

/-- The last packet appended to the in-flight set (the packet a send just
scheduled); used to name the SYN / SYN-ACK / ACK of a handshake run. -/
def lastInFlight (w : World) : Packet :=
  w.packets.getLastD
    { id := 0, source := .CLIENT, destination := .SERVER, flag := .NONE
      seq := 0, ack := 0, payload := "", sessionId := none }

/-- One firing of the delivery timer under the no-drop, uniform-latency
schedule of the handshake scenario: the most recently scheduled packet is the
next to arrive, and it is forwarded through the in-flight guard to the
reply-emitting arrival handler (`schedulePacketArrivalRef.current` →
`handleArrival` → `processPacketArrivalRef.current`). -/
def deliverLatest (w : World) : World :=
  deliverCur (lastInFlight w) w

/-- Well-formedness: each node record carries its own role, as established by
the two `useState` initialisers (source lines 15-31) and never changed. -/
def wf (w : World) : Prop :=
  w.client.role = .CLIENT ∧ w.server.role = .SERVER

/-- Transition rows of the `useCallback` arrival handler
`processPacketArrival`: the (receiver role, receiver state, flag) triples for
which the handler has a branch. -/
def hasRow : Role → ConnectionState → PacketFlag → Bool
  | .SERVER, .LISTEN, .SYN => true
  | .SERVER, .SYN_RCVD, .ACK => true
  | .SERVER, .ESTABLISHED, .DATA => true
  | .SERVER, .ESTABLISHED, .FIN => true
  | .CLIENT, .SYN_SENT, .SYN_ACK => true
  | .CLIENT, .ESTABLISHED, .ACK => true
  | _, _, _ => false

/-- The initial world of the simulator (source lines 9-31): client CLOSED with
seq 100, server LISTEN with seq 5000. -/
def initialWorld : World :=
  { client := { role := .CLIENT, connectionState := .CLOSED, seq := 100
                lastAckReceived := 0, sessionId := none, logs := [] }
    server := { role := .SERVER, connectionState := .LISTEN, seq := 5000
                lastAckReceived := 0, sessionId := none, logs := [] }
    packets := []
    nextId := 0
    nextSid := 0 }

/-- A client node state with the given connection state, sequence counter,
last-ack counter and session id, used to build concrete test worlds. -/
def mkClient (cs : ConnectionState) (sq la : Nat) (sid : Option String) : NodeState :=
  { role := .CLIENT, connectionState := cs, seq := sq
    lastAckReceived := la, sessionId := sid, logs := [] }

/-- A server node state with the given fields, used to build concrete test
worlds. -/
def mkServer (cs : ConnectionState) (sq la : Nat) (sid : Option String) : NodeState :=
  { role := .SERVER, connectionState := cs, seq := sq
    lastAckReceived := la, sessionId := sid, logs := [] }

/-- A client-to-server ACK whose ack number 7 does not match the server
sequence number 5001 of `wSynRcvd`. -/
def pBadAck : Packet :=
  { id := 10, source := .CLIENT, destination := .SERVER, flag := .ACK
    seq := 101, ack := 7, payload := "", sessionId := some "SES-0" }

/-- A mid-handshake world: client SYN_SENT, server SYN_RCVD with seq 5001,
and the mismatching ACK `pBadAck` in flight. -/
def wSynRcvd : World :=
  { client := mkClient .SYN_SENT 101 0 none
    server := mkServer .SYN_RCVD 5001 101 (some "SES-0")
    packets := [pBadAck], nextId := 11, nextSid := 1 }

/-- A client-to-server FIN with sequence number 102. -/
def pFin : Packet :=
  { id := 20, source := .CLIENT, destination := .SERVER, flag := .FIN
    seq := 102, ack := 5001, payload := "", sessionId := some "SES-0" }

/-- An established connection with the FIN `pFin` in flight; the server
`lastAckReceived` is 102. -/
def wEst : World :=
  { client := mkClient .ESTABLISHED 102 5001 (some "SES-0")
    server := mkServer .ESTABLISHED 5001 102 (some "SES-0")
    packets := [pFin], nextId := 21, nextSid := 1 }

/-- A client-to-server RST. -/
def pRst : Packet :=
  { id := 30, source := .CLIENT, destination := .SERVER, flag := .RST
    seq := 103, ack := 5001, payload := "", sessionId := some "SES-0" }

/-- An established connection with the RST `pRst` in flight. -/
def wEstR : World :=
  { client := mkClient .ESTABLISHED 102 5001 (some "SES-0")
    server := mkServer .ESTABLISHED 5001 102 (some "SES-0")
    packets := [pRst], nextId := 31, nextSid := 1 }

/-- A world whose client is in SYN_SENT (neither CLOSED nor ESTABLISHED), so
both the `handleConnect` guard and the `handleSendData` guard reject; its
server is still in LISTEN. -/
def wSynSent : World :=
  { client := mkClient .SYN_SENT 101 0 none
    server := mkServer .LISTEN 5000 0 none
    packets := [], nextId := 1, nextSid := 0 }

/-- A client-to-server ACK whose ack number 5001 matches the server sequence
number of `wSynRcvd`. -/
def pGoodAck : Packet :=
  { id := 12, source := .CLIENT, destination := .SERVER, flag := .ACK
    seq := 101, ack := 5001, payload := "", sessionId := some "SES-0" }

/-- A client-to-server SYN with sequence number 100. -/
def pSyn : Packet :=
  { id := 40, source := .CLIENT, destination := .SERVER, flag := .SYN
    seq := 100, ack := 0, payload := "", sessionId := none }

/-- A client-to-server DATA packet with sequence number 102. -/
def pData : Packet :=
  { id := 50, source := .CLIENT, destination := .SERVER, flag := .DATA
    seq := 102, ack := 5001, payload := "hello", sessionId := some "SES-0" }

/-- A server-to-client SYN-ACK with sequence number 5000. -/
def pSynAck : Packet :=
  { id := 60, source := .SERVER, destination := .CLIENT, flag := .SYN_ACK
    seq := 5000, ack := 101, payload := "", sessionId := some "SES-0" }

/-- Appending a log entry never changes the in-flight packet set. -/
theorem addLog_packets (r : Role) (m : String) (t : LogType) (w : World) :
    (addLog r m t w).packets = w.packets := by
  cases r <;> rfl

/-- The `useCallback` arrival handler only removes the arrived packet from the
in-flight set; it never adds packets (it emits no replies). -/
theorem packets_processPacketArrival (p : Packet) (w : World) :
    (processPacketArrival p w).packets = w.packets.filter (fun q => q.id != p.id) := by
  unfold processPacketArrival
  repeat' (split <;> (try simp_all [addLog_packets]))

/-- After filtering out an id, no packet with that id remains. -/
theorem any_filter_id_false (l : List Packet) (i : Nat) :
    (l.filter (fun q => q.id != i)).any (fun q => q.id == i) = false := by
  simp [List.any_eq_true, List.mem_filter]

/-- Filtering out an id that is not present leaves the list unchanged. -/
theorem filter_id_of_find?_none (l : List Packet) (i : Nat)
    (h : l.find? (fun q => q.id == i) = none) :
    l.filter (fun q => q.id != i) = l := by
  rw [List.filter_eq_self]
  intro a ha
  have := List.find?_eq_none.mp h a ha
  simpa using this

/-- Delivery is a no-op once the packet id is absent from the in-flight set. -/
theorem deliver_of_any_eq_false (p : Packet) (w : World)
    (h : w.packets.any (fun q => q.id == p.id) = false) :
    deliver p w = w := by
  simp [deliver, h]

/-- Dropping filters the packet id out of the in-flight set. -/
theorem packets_handleDropPacket (i : Nat) (w : World) :
    (handleDropPacket i w).packets = w.packets.filter (fun p => p.id != i) := by
  unfold handleDropPacket
  cases hf : w.packets.find? (fun p => p.id == i) <;> simp [addLog_packets]

/-- Delivering a packet after its id was dropped is a no-op. -/
theorem deliver_handleDropPacket_noop (w : World) (i : Nat) (p : Packet)
    (h : p.id = i) :
    deliver p (handleDropPacket i w) = handleDropPacket i w := by
  subst h
  exact deliver_of_any_eq_false _ _ (by rw [packets_handleDropPacket, any_filter_id_false])

/-- C5: every packet is delivered at most once: delivery removes the packet id
from the in-flight set, a second delivery of the same packet is a no-op on the
whole world (both node states included), and a packet dropped before its
deadline is never delivered afterwards. -/
theorem c5_at_most_once_delivery (p : Packet) (w : World) :
    (deliver p w).packets.any (fun q => q.id == p.id) = false
    ∧ deliver p (deliver p w) = deliver p w
    ∧ deliver p (handleDropPacket p.id w) = handleDropPacket p.id w := by
  have h1 : (deliver p w).packets.any (fun q => q.id == p.id) = false := by
    by_cases h : w.packets.any (fun q => q.id == p.id)
    · simp [deliver, h, packets_processPacketArrival, any_filter_id_false]
    · simp only [Bool.not_eq_true] at h
      simp [deliver, h]
  exact ⟨h1, deliver_of_any_eq_false _ _ h1, deliver_handleDropPacket_noop w p.id p rfl⟩

/-- C6: `handleDropPacket` on an in-flight packet removes it and appends
exactly one loss log entry to the packet source; on a delivered or unknown id
it is a complete no-op; and a dropped packet never reaches the receiving side
(its later delivery is a no-op, so no receiver transition or log occurs). -/
theorem c6_drop_semantics (w : World) (i : Nat) :
    (w.packets.find? (fun q => q.id == i) = none → handleDropPacket i w = w)
    ∧ (∀ p, w.packets.find? (fun q => q.id == i) = some p →
        (handleDropPacket i w).packets = w.packets.filter (fun q => q.id != i)
        ∧ (nodeOf (handleDropPacket i w) p.source).logs
            = (nodeOf w p.source).logs
              ++ [⟨"Packet " ++ flagStr p.flag ++ " lost/dropped in transit!", LogType.error⟩]
        ∧ (p.source ≠ p.destination →
            nodeOf (handleDropPacket i w) p.destination = nodeOf w p.destination))
    ∧ (∀ p : Packet, p.id = i →
        deliver p (handleDropPacket i w) = handleDropPacket i w) := by
  refine ⟨?_, ?_, fun p hp => deliver_handleDropPacket_noop w i p hp⟩
  · intro hnone
    unfold handleDropPacket
    rw [hnone, filter_id_of_find?_none _ _ hnone]
  · intro p hsome
    obtain ⟨pid, ps, pd, pf, pseq, pack, ppl, psid⟩ := p
    refine ⟨packets_handleDropPacket i w, ?_, ?_⟩
    · unfold handleDropPacket
      rw [hsome]
      cases ps <;> simp [addLog, nodeOf]
    · intro hne
      unfold handleDropPacket
      rw [hsome]
      cases ps <;> cases pd <;> simp_all [addLog, nodeOf]

/-- Witness for C6: dropping the in-flight FIN of `wEst` removes it, logs one
loss entry at its source, leaves its destination untouched, and a later
delivery is a no-op; dropping an unknown id is a complete no-op. -/
theorem c6_drop_semantics_witness :
    handleDropPacket 999 wEst = wEst
    ∧ (handleDropPacket 20 wEst).packets = wEst.packets.filter (fun q => q.id != 20)
    ∧ (nodeOf (handleDropPacket 20 wEst) pFin.source).logs
        = (nodeOf wEst pFin.source).logs
          ++ [⟨"Packet " ++ flagStr pFin.flag ++ " lost/dropped in transit!", LogType.error⟩]
    ∧ nodeOf (handleDropPacket 20 wEst) pFin.destination = nodeOf wEst pFin.destination
    ∧ deliver pFin (handleDropPacket 20 wEst) = handleDropPacket 20 wEst := by
  have h := (c6_drop_semantics wEst 20).2.1 pFin (by decide)
  exact ⟨(c6_drop_semantics wEst 999).1 (by decide), h.1, h.2.1, h.2.2 (by decide),
    (c6_drop_semantics wEst 20).2.2 pFin (by decide)⟩

/-- C8: a send never decreases the sender sequence number; it increments it by
exactly 1 for the sequence-consuming flags SYN, SYN-ACK, FIN, DATA and leaves
it unchanged otherwise (in particular for a bare ACK), and — absent a sequence
override, which no call site uses — the scheduled packet itself carries the
pre-increment sequence value. -/
theorem c8_seq_discipline (src : Role) (flag : PacketFlag) (payload : String)
    (oSeq oAck : Option Nat) (w : World) :
    (nodeOf w src).seq ≤ (nodeOf (sendPacketWithSchedule src flag payload oSeq oAck w) src).seq
    ∧ (seqConsuming flag = true →
        (nodeOf (sendPacketWithSchedule src flag payload oSeq oAck w) src).seq
          = (nodeOf w src).seq + 1)
    ∧ (seqConsuming flag = false →
        (nodeOf (sendPacketWithSchedule src flag payload oSeq oAck w) src).seq
          = (nodeOf w src).seq)
    ∧ (oSeq = none →
        (lastInFlight (sendPacketWithSchedule src flag payload oSeq oAck w)).seq
          = (nodeOf w src).seq
        ∧ (lastInFlight (sendPacketWithSchedule src flag payload oSeq oAck w)).flag = flag) := by
  refine ⟨?_, fun hf => ?_, fun hf => ?_, fun ho => ?_⟩
  · cases src <;> by_cases hf : seqConsuming flag <;>
      simp [sendPacketWithSchedule, mkPacket, addLog, setNode, nodeOf, hf]
  · cases src <;>
      simp [sendPacketWithSchedule, mkPacket, addLog, setNode, nodeOf, hf]
  · cases src <;>
      simp [sendPacketWithSchedule, mkPacket, addLog, setNode, nodeOf, hf]
  · subst ho
    cases src <;> by_cases hf : seqConsuming flag <;>
      simp [sendPacketWithSchedule, mkPacket, addLog, setNode, nodeOf, lastInFlight, hf,
        List.getLastD_concat]

/-- Witness for C8: from the initial world, sending a SYN advances the client
sequence number from 100 to 101 while the packet carries 100; sending a bare
ACK leaves it at 100. -/
theorem c8_seq_discipline_witness :
    (nodeOf (sendPacketWithSchedule .CLIENT .SYN "" none none initialWorld) .CLIENT).seq
      = (nodeOf initialWorld .CLIENT).seq + 1
    ∧ (lastInFlight (sendPacketWithSchedule .CLIENT .SYN "" none none initialWorld)).seq
      = (nodeOf initialWorld .CLIENT).seq
    ∧ (nodeOf (sendPacketWithSchedule .CLIENT .ACK "" none none initialWorld) .CLIENT).seq
      = (nodeOf initialWorld .CLIENT).seq := by
  exact ⟨(c8_seq_discipline .CLIENT .SYN "" none none initialWorld).2.1 (by decide),
    ((c8_seq_discipline .CLIENT .SYN "" none none initialWorld).2.2.2 rfl).1,
    (c8_seq_discipline .CLIENT .ACK "" none none initialWorld).2.2.1 (by decide)⟩

/-- C9: `handleDisconnect` from ESTABLISHED appends a client-to-server FIN to
the in-flight set and immediately — with the server still untouched, i.e.
before any delivery of that FIN — sets the client to CLOSED with a cleared
session id. -/
theorem c9_disconnect_immediate (w : World)
    (h : w.client.connectionState = .ESTABLISHED) :
    (handleDisconnect w).client.connectionState = .CLOSED
    ∧ (handleDisconnect w).client.sessionId = none
    ∧ (handleDisconnect w).server = w.server
    ∧ (handleDisconnect w).packets = w.packets ++ [mkPacket .CLIENT .FIN "" none none w]
    ∧ (mkPacket .CLIENT .FIN "" none none w).flag = .FIN
    ∧ (mkPacket .CLIENT .FIN "" none none w).source = .CLIENT
    ∧ (mkPacket .CLIENT .FIN "" none none w).destination = .SERVER := by
  refine ⟨?_, ?_, ?_, ?_, rfl, rfl, rfl⟩ <;>
    simp [handleDisconnect, sendPacketWithSchedule, mkPacket, addLog, setNode, nodeOf,
      seqConsuming]

/-- Witness for C9: disconnecting the established world `wEst`. -/
theorem c9_disconnect_immediate_witness :
    (handleDisconnect wEst).client.connectionState = .CLOSED
    ∧ (handleDisconnect wEst).client.sessionId = none
    ∧ (handleDisconnect wEst).server = wEst.server := by
  have h := c9_disconnect_immediate wEst (by decide)
  exact ⟨h.1, h.2.1, h.2.2.1⟩

/-- C10: `handleDisconnect` carries no state guard: from every client state it
appends a FIN, advances the client sequence number by one, and moves the
client to CLOSED with a cleared session id — unlike `handleConnect`, a no-op
outside CLOSED, and `handleSendData`, a no-op outside ESTABLISHED. -/
theorem c10_disconnect_unguarded (w : World) (payload : String) :
    (handleDisconnect w).client.connectionState = .CLOSED
    ∧ (handleDisconnect w).client.sessionId = none
    ∧ (handleDisconnect w).client.seq = w.client.seq + 1
    ∧ (handleDisconnect w).packets = w.packets ++ [mkPacket .CLIENT .FIN "" none none w]
    ∧ (mkPacket .CLIENT .FIN "" none none w).flag = .FIN
    ∧ (w.client.connectionState ≠ .CLOSED → handleConnect w = w)
    ∧ (w.client.connectionState ≠ .ESTABLISHED → handleSendData payload w = w) := by
  refine ⟨?_, ?_, ?_, ?_, rfl, fun h => ?_, fun h => ?_⟩
  · simp [handleDisconnect, sendPacketWithSchedule, mkPacket, addLog, setNode, nodeOf,
      seqConsuming]
  · simp [handleDisconnect, sendPacketWithSchedule, mkPacket, addLog, setNode, nodeOf,
      seqConsuming]
  · simp [handleDisconnect, sendPacketWithSchedule, mkPacket, addLog, setNode, nodeOf,
      seqConsuming]
  · simp [handleDisconnect, sendPacketWithSchedule, mkPacket, addLog, setNode, nodeOf,
      seqConsuming]
  · simp [handleConnect, h]
  · simp [handleSendData, h]

/-- Witness for C10: in `wSynSent` (client SYN_SENT, so neither CLOSED nor
ESTABLISHED) disconnect still fires while connect and sendData are no-ops. -/
theorem c10_disconnect_unguarded_witness :
    (handleDisconnect wSynSent).client.connectionState = .CLOSED
    ∧ (handleDisconnect wSynSent).client.seq = wSynSent.client.seq + 1
    ∧ handleConnect wSynSent = wSynSent
    ∧ handleSendData "x" wSynSent = wSynSent := by
  have h := c10_disconnect_unguarded wSynSent "x"
  exact ⟨h.1, h.2.2.1, h.2.2.2.2.2.1 (by decide), h.2.2.2.2.2.2 (by decide)⟩

/-- A freshly allocated session id string through the JavaScript truthiness
filter: it is nonempty, so `x || null` keeps it. -/
theorem jsStrOr_ses (n : Nat) :
    jsStrOr (some ("SES-" ++ toString n)) = some ("SES-" ++ toString n) := by
  simp only [jsStrOr]
  rw [if_neg]
  intro h
  have h2 := congrArg String.length h
  simp [String.length_append] at h2
  exact absurd h2.1 (by decide)

/-- C7: when the flag/state combination of an arriving packet matches no
transition row of `processPacketArrival`, the receiver keeps its
connectionState, seq, lastAckReceived and sessionId, gains exactly the one
receipt log entry, no reply is emitted (the in-flight set only shrinks by the
arrived packet), and the other node is untouched. -/
theorem c7_unmatched_ignored (w : World) (p : Packet) (hw : wf w)
    (h : hasRow p.destination ((nodeOf w p.destination).connectionState) p.flag = false) :
    (nodeOf (processPacketArrival p w) p.destination).connectionState
      = (nodeOf w p.destination).connectionState
    ∧ (nodeOf (processPacketArrival p w) p.destination).seq = (nodeOf w p.destination).seq
    ∧ (nodeOf (processPacketArrival p w) p.destination).lastAckReceived
      = (nodeOf w p.destination).lastAckReceived
    ∧ (nodeOf (processPacketArrival p w) p.destination).sessionId
      = (nodeOf w p.destination).sessionId
    ∧ (processPacketArrival p w).packets = w.packets.filter (fun q => q.id != p.id)
    ∧ (nodeOf (processPacketArrival p w) p.destination).logs
      = (nodeOf w p.destination).logs ++ [⟨"Received " ++ flagStr p.flag, LogType.traffic⟩]
    ∧ nodeOf (processPacketArrival p w) (otherRole p.destination)
      = nodeOf w (otherRole p.destination) := by
  obtain ⟨⟨rc, ccs, cseq, cla, csid, clogs⟩, ⟨rs, scs, sseq, sla, ssid, slogs⟩, pk, ni, ns⟩ := w
  obtain ⟨pid, ps, pd, pf, pseq, pak, ppl, psid⟩ := p
  simp only [wf] at hw
  obtain ⟨hc, hs⟩ := hw
  subst hc
  subst hs
  cases pd
  · cases pf <;> cases ccs <;>
      simp_all [processPacketArrival, addLog, nodeOf, otherRole, hasRow, flagStr]
  · cases pf <;> cases scs <;>
      simp_all [processPacketArrival, addLog, nodeOf, otherRole, hasRow, flagStr]

/-- Witness for C7: an ACK arriving at a LISTEN server matches no row and is
ignored apart from the receipt log. -/
theorem c7_unmatched_ignored_witness :
    (nodeOf (processPacketArrival pBadAck wSynSent) pBadAck.destination).connectionState
      = (nodeOf wSynSent pBadAck.destination).connectionState
    ∧ (processPacketArrival pBadAck wSynSent).packets
      = wSynSent.packets.filter (fun q => q.id != pBadAck.id)
    ∧ nodeOf (processPacketArrival pBadAck wSynSent) (otherRole pBadAck.destination)
      = nodeOf wSynSent (otherRole pBadAck.destination) := by
  have h := c7_unmatched_ignored wSynSent pBadAck ⟨rfl, rfl⟩ (by decide)
  exact ⟨h.1, h.2.2.2.2.1, h.2.2.2.2.2.2⟩

/-- Counterexample for C2 as stated: in `wSynRcvd` the server is in SYN_RCVD
and the in-flight ACK `pBadAck` carries ack 7 ≠ server.seq 5001, yet its
delivery through the reply-emitting handler (`processPacketArrivalRef.current`,
whose ACK branch at source line 316 tests only the flag and the state) moves
the server to ESTABLISHED instead of leaving it unchanged. -/
theorem c2_unguarded_ack_counterexample :
    pBadAck.flag = PacketFlag.ACK
    ∧ pBadAck.destination = Role.SERVER
    ∧ wSynRcvd.server.connectionState = ConnectionState.SYN_RCVD
    ∧ pBadAck.ack ≠ wSynRcvd.server.seq
    ∧ (deliverCur pBadAck wSynRcvd).server.connectionState = ConnectionState.ESTABLISHED := by
  decide

/-- C2 amended: the ack guard `packet.ack === server.seq` exists only in the
`useCallback` handler `processPacketArrival` (source line 151), where the
claimed iff holds and a mismatching ACK leaves the server in SYN_RCVD; the
reassigned handler `processPacketArrivalRef.current` establishes on every ACK
received in SYN_RCVD regardless of its ack field. -/
theorem c2_ack_guard_amended (w : World) (p : Packet) (hw : wf w)
    (hd : p.destination = .SERVER) (hs : w.server.connectionState = .SYN_RCVD)
    (hf : p.flag = .ACK) :
    ((processPacketArrival p w).server.connectionState = .ESTABLISHED ↔ p.ack = w.server.seq)
    ∧ (p.ack ≠ w.server.seq →
        (processPacketArrival p w).server.connectionState = .SYN_RCVD)
    ∧ (processPacketArrivalCur p w).server.connectionState = .ESTABLISHED := by
  obtain ⟨⟨rc, ccs, cseq, cla, csid, clogs⟩, ⟨rs, scs, sseq, sla, ssid, slogs⟩, pk, ni, ns⟩ := w
  obtain ⟨pid, ps, pd, pf, pseq, pak, ppl, psid⟩ := p
  simp only [wf] at hw
  obtain ⟨hc, hs2⟩ := hw
  simp only at hd hs hf
  subst hc; subst hs2; subst hd; subst hs; subst hf
  by_cases hack : pak = sseq <;>
    simp_all [processPacketArrival, processPacketArrivalCur, addLog, nodeOf, otherRole]

/-- Witness for the amended C2: a matching ACK establishes and a mismatching
ACK is ignored in `processPacketArrival`, while `processPacketArrivalRef.current`
establishes even on the mismatching ACK. -/
theorem c2_ack_guard_amended_witness :
    (processPacketArrival pGoodAck wSynRcvd).server.connectionState
      = ConnectionState.ESTABLISHED
    ∧ (processPacketArrival pBadAck wSynRcvd).server.connectionState
      = ConnectionState.SYN_RCVD
    ∧ (processPacketArrivalCur pBadAck wSynRcvd).server.connectionState
      = ConnectionState.ESTABLISHED := by
  have hg := c2_ack_guard_amended wSynRcvd pGoodAck ⟨rfl, rfl⟩ rfl rfl rfl
  have hb := c2_ack_guard_amended wSynRcvd pBadAck ⟨rfl, rfl⟩ rfl rfl rfl
  exact ⟨hg.1.mpr (by decide), hb.2.1 (by decide), hb.2.2⟩

/-- Counterexample for C3 as stated: the FIN `pFin` carries a
sequence-consuming flag and matches the ESTABLISHED/FIN row — its delivery
does close the connection — yet the server `lastAckReceived` stays at its old
value 102 instead of becoming `pFin.seq + 1 = 103`. -/
theorem c3_fin_counterexample :
    seqConsuming pFin.flag = true
    ∧ hasRow pFin.destination wEst.server.connectionState pFin.flag = true
    ∧ (deliver pFin wEst).server.connectionState = ConnectionState.CLOSED
    ∧ (deliver pFin wEst).server.lastAckReceived ≠ pFin.seq + 1 := by
  decide

/-- C3 amended: for the accepted sequence-consuming flags SYN, DATA and
SYN-ACK both arrival handlers set the receiver `lastAckReceived` to
`packet.seq + 1`; an accepted FIN leaves `lastAckReceived` unchanged in both
handlers. -/
theorem c3_lastAck_amended (w : World) (p : Packet) (hw : wf w) :
    (p.destination = .SERVER → w.server.connectionState = .LISTEN → p.flag = .SYN →
        (processPacketArrival p w).server.lastAckReceived = p.seq + 1
        ∧ (processPacketArrivalCur p w).server.lastAckReceived = p.seq + 1)
    ∧ (p.destination = .SERVER → w.server.connectionState = .ESTABLISHED → p.flag = .DATA →
        (processPacketArrival p w).server.lastAckReceived = p.seq + 1
        ∧ (processPacketArrivalCur p w).server.lastAckReceived = p.seq + 1)
    ∧ (p.destination = .CLIENT → w.client.connectionState = .SYN_SENT → p.flag = .SYN_ACK →
        (processPacketArrival p w).client.lastAckReceived = p.seq + 1
        ∧ (processPacketArrivalCur p w).client.lastAckReceived = p.seq + 1)
    ∧ (p.destination = .SERVER → w.server.connectionState = .ESTABLISHED → p.flag = .FIN →
        (processPacketArrival p w).server.lastAckReceived = w.server.lastAckReceived)
    ∧ (p.destination = .SERVER → p.flag = .FIN →
        (processPacketArrivalCur p w).server.lastAckReceived = w.server.lastAckReceived) := by
  obtain ⟨⟨rc, ccs, cseq, cla, csid, clogs⟩, ⟨rs, scs, sseq, sla, ssid, slogs⟩, pk, ni, ns⟩ := w
  obtain ⟨pid, ps, pd, pf, pseq, pak, ppl, psid⟩ := p
  simp only [wf] at hw
  obtain ⟨hc, hs⟩ := hw
  subst hc; subst hs
  refine ⟨?_, ?_, ?_, ?_, ?_⟩ <;>
    (intro h1 h2 <;> try intro h3) <;>
    simp only at h1 h2 <;>
    (try simp only at h3) <;>
    subst h1 <;> (try subst h2) <;> (try subst h3) <;>
    simp_all [processPacketArrival, processPacketArrivalCur, sendPacketWithSchedule, mkPacket,
      addLog, setNode, nodeOf, otherRole, seqConsuming]

/-- Witness for the amended C3: accepted SYN, DATA, SYN-ACK deliveries set the
receiver `lastAckReceived` to seq + 1, while an accepted FIN leaves it at its
old value in both handlers. -/
theorem c3_lastAck_amended_witness :
    (processPacketArrival pSyn wSynSent).server.lastAckReceived = pSyn.seq + 1
    ∧ (processPacketArrival pData wEst).server.lastAckReceived = pData.seq + 1
    ∧ (processPacketArrival pSynAck wSynRcvd).client.lastAckReceived = pSynAck.seq + 1
    ∧ (processPacketArrival pFin wEst).server.lastAckReceived = wEst.server.lastAckReceived
    ∧ (processPacketArrivalCur pFin wEst).server.lastAckReceived
      = wEst.server.lastAckReceived := by
  have h1 := (c3_lastAck_amended wSynSent pSyn ⟨rfl, rfl⟩).1 rfl rfl rfl
  have h2 := (c3_lastAck_amended wEst pData ⟨rfl, rfl⟩).2.1 rfl rfl rfl
  have h3 := (c3_lastAck_amended wSynRcvd pSynAck ⟨rfl, rfl⟩).2.2.1 rfl rfl rfl
  have h4 := (c3_lastAck_amended wEst pFin ⟨rfl, rfl⟩).2.2.2.1 rfl rfl rfl
  have h5 := (c3_lastAck_amended wEst pFin ⟨rfl, rfl⟩).2.2.2.2 rfl rfl
  exact ⟨h1.1, h2.1, h3.1, h4, h5⟩

/-- Counterexample for C4 as stated: delivering the RST `pRst` to the
ESTABLISHED server of `wEstR` leaves it in ESTABLISHED with its session id
still set — through either arrival handler — instead of the claimed
transition to CLOSED with cleared session and counters. -/
theorem c4_rst_counterexample :
    pRst.flag = PacketFlag.RST
    ∧ (deliver pRst wEstR).server.connectionState = ConnectionState.ESTABLISHED
    ∧ ConnectionState.ESTABLISHED ≠ ConnectionState.CLOSED
    ∧ (deliver pRst wEstR).server.sessionId = some ("SES-0")
    ∧ (deliverCur pRst wEstR).server.connectionState = ConnectionState.ESTABLISHED := by
  decide

/-- C4 amended: no branch of either arrival handler matches the RST flag, so
an RST delivered to the server in any state leaves its connectionState, seq,
lastAckReceived and sessionId all unchanged (it is silently ignored). -/
theorem c4_rst_ignored_amended (w : World) (p : Packet) (hw : wf w)
    (hd : p.destination = .SERVER) (hf : p.flag = .RST) :
    (processPacketArrival p w).server.connectionState = w.server.connectionState
    ∧ (processPacketArrival p w).server.seq = w.server.seq
    ∧ (processPacketArrival p w).server.lastAckReceived = w.server.lastAckReceived
    ∧ (processPacketArrival p w).server.sessionId = w.server.sessionId
    ∧ (processPacketArrivalCur p w).server.connectionState = w.server.connectionState
    ∧ (processPacketArrivalCur p w).server.seq = w.server.seq
    ∧ (processPacketArrivalCur p w).server.lastAckReceived = w.server.lastAckReceived
    ∧ (processPacketArrivalCur p w).server.sessionId = w.server.sessionId := by
  obtain ⟨⟨rc, ccs, cseq, cla, csid, clogs⟩, ⟨rs, scs, sseq, sla, ssid, slogs⟩, pk, ni, ns⟩ := w
  obtain ⟨pid, ps, pd, pf, pseq, pak, ppl, psid⟩ := p
  simp only [wf] at hw
  obtain ⟨hc, hs⟩ := hw
  simp only at hd hf
  subst hc; subst hs; subst hd; subst hf
  cases scs <;>
    simp_all [processPacketArrival, processPacketArrivalCur, addLog, nodeOf, otherRole]

/-- Witness for the amended C4: the RST delivery at the established world
changes nothing on the server through either handler. -/
theorem c4_rst_ignored_amended_witness :
    (processPacketArrival pRst wEstR).server.connectionState
      = wEstR.server.connectionState
    ∧ (processPacketArrival pRst wEstR).server.sessionId = wEstR.server.sessionId
    ∧ (processPacketArrivalCur pRst wEstR).server.connectionState
      = wEstR.server.connectionState := by
  have h := c4_rst_ignored_amended wEstR pRst ⟨rfl, rfl⟩ rfl rfl
  exact ⟨h.1, h.2.2.2.1, h.2.2.2.2.1⟩

/-- C1: from any world with the client CLOSED and the server LISTEN, running
`connect()` and then delivering, drop-free, the scheduled SYN, the automatic
SYN-ACK reply, and the automatic final ACK reply through the reply-emitting
arrival handler leaves both endpoints ESTABLISHED with equal, non-null
session ids. -/
theorem c1_handshake_establishes (w : World) (hw : wf w)
    (hc : w.client.connectionState = .CLOSED) (hs : w.server.connectionState = .LISTEN) :
    (lastInFlight (handleConnect w)).flag = .SYN
    ∧ (lastInFlight (deliverLatest (handleConnect w))).flag = .SYN_ACK
    ∧ (lastInFlight (deliverLatest (deliverLatest (handleConnect w)))).flag = .ACK
    ∧ (deliverLatest (deliverLatest (deliverLatest (handleConnect w)))).client.connectionState
        = .ESTABLISHED
    ∧ (deliverLatest (deliverLatest (deliverLatest (handleConnect w)))).server.connectionState
        = .ESTABLISHED
    ∧ (deliverLatest (deliverLatest (deliverLatest (handleConnect w)))).client.sessionId
        = (deliverLatest (deliverLatest (deliverLatest (handleConnect w)))).server.sessionId
    ∧ (deliverLatest (deliverLatest (deliverLatest (handleConnect w)))).client.sessionId
        ≠ none := by
  obtain ⟨⟨rc, ccs, cseq, cla, csid, clogs⟩, ⟨rs, scs, sseq, sla, ssid, slogs⟩, pk, ni, ns⟩ := w
  simp only [wf] at hw
  obtain ⟨hc2, hs2⟩ := hw
  simp only at hc hs
  subst hc2; subst hs2; subst hc; subst hs
  simp [deliverLatest, handleConnect, deliverCur, processPacketArrivalCur,
    sendPacketWithSchedule, mkPacket, addLog, setNode, nodeOf, otherRole, seqConsuming,
    lastInFlight, freshSessionId, jsStrOr_ses, List.getLastD_concat, List.filter_append,
    List.any_append, List.any_cons, List.any_nil]

/-- Witness for C1: the three-way handshake run from the initial simulator
world ends with both endpoints ESTABLISHED on the same non-null session id. -/
theorem c1_handshake_establishes_witness :
    (deliverLatest (deliverLatest (deliverLatest (handleConnect initialWorld)))).client.connectionState
        = ConnectionState.ESTABLISHED
    ∧ (deliverLatest (deliverLatest (deliverLatest (handleConnect initialWorld)))).server.connectionState
        = ConnectionState.ESTABLISHED
    ∧ (deliverLatest (deliverLatest (deliverLatest (handleConnect initialWorld)))).client.sessionId
        = (deliverLatest (deliverLatest (deliverLatest (handleConnect initialWorld)))).server.sessionId
    ∧ (deliverLatest (deliverLatest (deliverLatest (handleConnect initialWorld)))).client.sessionId
        ≠ none := by
  have h := c1_handshake_establishes initialWorld ⟨rfl, rfl⟩ rfl rfl
  exact ⟨h.2.2.2.1, h.2.2.2.2.1, h.2.2.2.2.2.1, h.2.2.2.2.2.2⟩
